import Mathlib

/-!
Verification of the dispute-focus analysis pipeline of the legal-project
repository (`工程组件/命令系统/identify_disputes.py` and
`工程组件/命令系统/case_utils.py`).

The Python code is shallowly embedded as follows.

* File reads are modelled by a `ReadOutcome` per encoding attempt: the
  UTF-8 attempt and the GBK attempt of `read_text_file` each either return
  text, raise a decoding error, or raise some other error carrying a
  message.
* The ambient world (`os.path.isdir`, `os.path.isfile`, directory
  listings, the clock, and the outcome of the underlying generation call)
  is a record of functions `Env` passed to `identify_dispute_focus`.
* Filesystem writes are not performed but recorded: the function returns
  the ordered list of `FsEffect`s it performs (`os.makedirs` and the
  report-file write) together with its boolean return value.
* `datetime.datetime.now().strftime(...)` is modelled by `format_date` /
  `format_timestamp` over a `DateTime` record of numeric fields, with
  zero-padded fixed-width decimal rendering as `strftime` produces for
  the directives `%Y %m %d %H %M %S` (four-digit years).
-/

/-- Outcome of one attempt to open and decode a file with one encoding:
the decoded text, a `UnicodeDecodeError`, or any other raised error with
its message. -/
inductive ReadOutcome where
  | ok (text : String)
  | decodeError
  | otherError (msg : String)
deriving DecidableEq

/-- Embedding of `read_text_file` (identify_disputes.py lines 14-34).
`file_name` stands for the path; the placeholder strings use
`os.path.basename(file_path)`, which we identify with the stored name.
The UTF-8 attempt is tried first; a `UnicodeDecodeError` triggers the GBK
retry, whose own failure of any kind yields the no-message placeholder;
any other error on the first attempt yields the placeholder carrying the
error message. The function is total: no failure escapes it. -/
def read_text_file (file_name : String) (utf8 gbk : ReadOutcome) : String :=
  match utf8 with
  | ReadOutcome.ok text => text
  | ReadOutcome.decodeError =>
    match gbk with
    | ReadOutcome.ok text => text
    | ReadOutcome.decodeError => "[无法读取文件: " ++ file_name ++ "]"
    | ReadOutcome.otherError _ => "[无法读取文件: " ++ file_name ++ "]"
  | ReadOutcome.otherError e => "[读取文件错误: " ++ file_name ++ " - " ++ e ++ "]"

/-- A point in time as carried by `datetime.datetime.now()`. -/
structure DateTime where
  year : Nat
  month : Nat
  day : Nat
  hour : Nat
  minute : Nat
  second : Nat
deriving DecidableEq

/-- The decimal digit character for `n % 10`-sized inputs. -/
def digitChar (n : Nat) : Char := Char.ofNat (48 + n)

/-- Two-digit zero-padded decimal rendering, as `strftime` `%m %d %H %M %S`. -/
def pad2 (n : Nat) : String := String.mk [digitChar (n / 10 % 10), digitChar (n % 10)]

/-- Four-digit zero-padded decimal rendering, as `strftime` `%Y` for the
years a real clock produces. -/
def pad4 (n : Nat) : String :=
  String.mk [digitChar (n / 1000 % 10), digitChar (n / 100 % 10),
             digitChar (n / 10 % 10), digitChar (n % 10)]

/-- Embedding of `datetime.datetime.now().strftime("%Y%m%d%H%M%S")`
(identify_disputes.py line 294). -/
def format_timestamp (t : DateTime) : String :=
  pad4 t.year ++ pad2 t.month ++ pad2 t.day ++ pad2 t.hour ++ pad2 t.minute ++ pad2 t.second

/-- Embedding of `datetime.datetime.now().strftime("%Y-%m-%d")`
(identify_disputes.py lines 94 and 185). -/
def format_date (t : DateTime) : String :=
  pad4 t.year ++ "-" ++ pad2 t.month ++ "-" ++ pad2 t.day

/-- Field ranges a real `datetime.datetime.now()` value satisfies. -/
def ValidDateTime (t : DateTime) : Prop :=
  1000 ≤ t.year ∧ t.year ≤ 9999 ∧ 1 ≤ t.month ∧ t.month ≤ 12 ∧ 1 ≤ t.day ∧ t.day ≤ 31 ∧
  t.hour ≤ 23 ∧ t.minute ≤ 59 ∧ t.second ≤ 59

instance (t : DateTime) : Decidable (ValidDateTime t) := by
  unfold ValidDateTime
  infer_instance

/-- Outcome of the underlying text-generation call guarded by the
`try` of `analyze_with_ai`: success, or a raised exception with its
`str(e)` message. -/
inductive GenOutcome where
  | ok
  | fail (errMsg : String)
deriving DecidableEq

/-- The separator joining material contents (identify_disputes.py line 52). -/
def material_separator : String := "\n\n--- 材料分隔线 ---\n\n"

/-- Embedding of the prompt assembly inside `analyze_with_ai`
(identify_disputes.py lines 52-67). -/
def build_prompt (case_name : String) (materials : List String) (prompt_template : String) :
    String :=
  let material_content := String.intercalate material_separator materials
  "\n你是一名资深法律专家，请根据三层次争议焦点识别方法论，分析以下案件材料并识别争议焦点。\n\n案件名称：" ++
    case_name ++ "\n\n" ++ prompt_template ++ "\n\n以下是案件材料：\n" ++ material_content ++
    "\n\n请按照上述三层次争议焦点识别方法论的框架，根据材料识别并分析本案的争议焦点。\n回答格式请参照三层次争议焦点识别方法论的结构，解析应当全面、专业、准确。\n        "

/-- The fixed mock report returned on the success path of `analyze_with_ai`
(identify_disputes.py lines 89-169); it interpolates only the case name and
the current date. -/
def success_report (case_name date_str : String) : String :=
  "\n# " ++ case_name ++ " 争议焦点分析\n\n## 基本信息\n- 案件名称：" ++ case_name ++
    "\n- 分析日期：" ++ date_str ++
    "\n\n## 第一层：法律关系分析\n\n经过分析，本案涉及的主要法律关系是机动车交通事故责任纠纷，属于侵权责任法律关系。\n\n当事人法律身份与地位：\n- 原告：梁某、林某（受害人）\n- 被告：吴某（机动车驾驶人）、施工方（道路施工方）、保险公司（机动车交通事故责任强制保险提供方）\n\n法律关系形成过程及关键时间节点：\n- 事故发生时间\n- 保险合同签订时间\n- 道路施工开始时间\n\n适用法律体系：\n- 《中华人民共和国民法典》侵权责任编\n- 《中华人民共和国道路交通安全法》\n- 《机动车交通事故责任强制保险条例》\n\n## 第二层：请求权基础分解\n\n原告诉讼请求可能包括：\n1. 人身损害赔偿请求：医疗费、误工费、护理费、残疾赔偿金等\n2. 财产损失赔偿请求：车辆损失、随车财物损失等\n3. 精神损害赔偿请求\n\n对应法条：\n- 民法典第1176条（交通事故责任）\n- 民法典第1213条（机动车交通事故责任）\n- 民法典第1217条（道路管理人责任）\n\n构成要件：\n1. 存在交通事故事实\n2. 各方存在过错\n3. 有损害结果\n4. 过错行为与损害结果之间存在因果关系\n5. 损失数额确定\n\n举证责任分配：\n- 原告需证明事故事实、损害后果及损失范围\n- 机动车驾驶人需证明自身无过错或已尽到安全驾驶义务\n- 施工方需证明已尽到安全保障义务，设置了足够的警示标志\n- 保险公司需证明是否属于保险责任免除情形\n\n## 第三层：对抗性问题提炼\n\n可能存在的主要争议点：\n\n1. 事故责任认定\n   - 原告主张：施工方未设置足够警示标志，驾驶人未尽到安全驾驶义务\n   - 被告反驳：施工区域有充分警示，驾驶人可能存在违章驾驶行为\n\n2. 损失计算标准\n   - 原告主张：按照最新赔偿标准计算\n   - 被告反驳：部分损失与事故无直接因果关系，后续治疗费用不合理\n\n3. 保险责任范围\n   - 原告主张：保险公司应在责任限额内全额赔付\n   - 保险公司反驳：部分损失属于免赔范围\n\n4. 施工方责任承担\n   - 原告主张：施工方未尽安全保障义务\n   - 施工方反驳：已按规定设置警示标志，事故主要由驾驶人过错造成\n\n## 争议焦点总结\n\n核心争议焦点：\n1. 交通事故责任如何划分？各方应承担多大比例的责任？\n2. 施工方是否尽到了安全保障义务？\n3. 保险公司赔偿责任的范围和限额是多少？\n4. 损害赔偿的具体项目和数额如何确定？\n5. 各被告之间是否构成连带责任？\n\n以上争议焦点将直接影响案件的审理方向和最终判决结果，应重点关注。\n"

/-- The fallback report returned by the `except` branch of `analyze_with_ai`
(identify_disputes.py lines 174-188): it carries the case name, the error
message, and the current date. -/
def fallback_report (case_name date_str err : String) : String :=
  "\n# " ++ case_name ++ " 争议焦点分析 (AI分析出错)\n\n## 错误信息\n\n" ++ err ++
    "\n\n## 基本信息\n- 案件名称：" ++ case_name ++ "\n- 分析日期：" ++ date_str ++
    "\n\n请手动完成争议焦点分析。\n"

/-- Embedding of `analyze_with_ai` (identify_disputes.py lines 36-188).
The prompt is assembled and handed to the underlying call `gen` (the
mocked API invocation guarded by the `try`); on success the fixed mock
report is returned, on any raised exception the fallback report is. -/
def analyze_with_ai (case_name : String) (materials : List String)
    (prompt_template : String) (gen : String → GenOutcome) (now : DateTime) : String :=
  let prompt := build_prompt case_name materials prompt_template
  match gen prompt with
  | GenOutcome.ok => success_report case_name (format_date now)
  | GenOutcome.fail e => fallback_report case_name (format_date now) e

/-- `os.path.join` for the relative components the scripts use. -/
def pjoin (a b : String) : String := a ++ "/" ++ b

/-- The three candidate directories tried in order, shared verbatim by
`get_case_path` (case_utils.py lines 24-28) and `identify_dispute_focus`
(identify_disputes.py lines 207-211): the case-marker-prefixed name, the
bare name, and the absolute-path variant. -/
def candidate_paths (base_dir cases_dir case_name : String) : List String :=
  [pjoin cases_dir ("案件：" ++ case_name),
   pjoin cases_dir case_name,
   pjoin (pjoin base_dir "案例") case_name]

/-- Embedding of `get_case_path` (case_utils.py lines 11-34): first
existing directory among the candidates, else `none`. -/
def get_case_path (isdir : String → Bool) (base_dir cases_dir case_name : String) :
    Option String :=
  (candidate_paths base_dir cases_dir case_name).find? isdir

/-- The methodology file path (identify_disputes.py line 230). -/
def method_path (base_dir : String) : String :=
  pjoin (pjoin (pjoin base_dir "工程组件") "争议焦点识别") "index.md"

/-- One file inside a directory listing: its basename and the outcomes of
decoding it with each of the two encodings. -/
structure FileData where
  name : String
  utf8 : ReadOutcome
  gbk : ReadOutcome
deriving DecidableEq

/-- The immediate contents of a materials directory: its subdirectories
(in `os.listdir` order) each with their own files, and the files lying
directly in the directory itself. -/
structure MaterialsDir where
  subdirs : List (String × List FileData)
  rootFiles : List FileData
deriving DecidableEq

/-- `read_text_file` applied to a listed file. -/
def read_file_content (f : FileData) : String :=
  read_text_file f.name f.utf8 f.gbk

/-- Whether a file name matches the glob pattern `*.<ext>`: the name ends
with the extension. Expressed over the character list so it evaluates. -/
def extMatches (f : FileData) (ext : String) : Bool := ext.data.isSuffixOf f.name.data

/-- The loop `for ext in ['*.txt', '*.md']: glob.glob(...)` over one
directory's entries: the `.txt` matches in listing order, then the `.md`
matches. -/
def globExts (entries : List FileData) : List FileData :=
  entries.filter (fun f => extMatches f ".txt") ++
    entries.filter (fun f => extMatches f ".md")

/-- The content records accumulated for one source label: one record per
globbed file whose read content is non-empty (`if content:`), tagged with
the label and the basename (identify_disputes.py lines 261-264 and
275-278, where the single-party label is `材料`). -/
def taggedContents (label : String) (entries : List FileData) : List String :=
  (globExts entries).filterMap (fun f =>
    let content := read_file_content f
    if content = "" then none
    else some ("【" ++ label ++ "】" ++ f.name ++ ":\n" ++ content))

/-- The three accumulators of the material-discovery loop
(identify_disputes.py lines 245-247). -/
structure CollectResult where
  material_files : List FileData
  material_sources : List (String × List FileData)
  material_contents : List String
deriving DecidableEq

/-- One iteration of the multi-party loop (identify_disputes.py lines
255-270): the subdirectory's globbed files always extend `material_files`;
only when some were found does the subdirectory appear as a source and
contribute its content records. -/
def collectStep (acc : CollectResult) (sub : String × List FileData) : CollectResult :=
  let files := globExts sub.2
  let contents := taggedContents sub.1 sub.2
  let acc1 : CollectResult := { acc with material_files := acc.material_files ++ files }
  if files = [] then acc1
  else
    { acc1 with
        material_sources := acc1.material_sources ++ [(sub.1, files)],
        material_contents := acc1.material_contents ++ contents }

/-- Embedding of material discovery (identify_disputes.py lines 244-282):
multi-party when at least one subdirectory exists, otherwise single-party
over the directory's own files under the label `通用材料`. -/
def collect (m : MaterialsDir) : CollectResult :=
  if m.subdirs = [] then
    let files := globExts m.rootFiles
    { material_files := files,
      material_sources := if files = [] then [] else [("通用材料", files)],
      material_contents := taggedContents "材料" m.rootFiles }
  else
    m.subdirs.foldl collectStep
      { material_files := [], material_sources := [], material_contents := [] }

/-- A filesystem mutation performed by the pipeline: `os.makedirs` or a
file write. The pipeline performs no deletion, so none is representable. -/
inductive FsEffect where
  | mkdirs (path : String)
  | writeFile (path : String) (content : String)
deriving DecidableEq

/-- The ambient world read by `identify_dispute_focus`: directory and file
existence, file contents (for the methodology file, read without a guard),
directory listings, the underlying generation call, and the clock. -/
structure Env where
  isdir : String → Bool
  isfile : String → Bool
  fileContent : String → String
  listing : String → MaterialsDir
  gen : String → GenOutcome
  now : DateTime

/-- Embedding of `identify_dispute_focus` (identify_disputes.py lines
190-302). Returns the ordered list of filesystem effects performed and
the boolean result. Note that `os.makedirs(focus_dir)` runs immediately
after case resolution, before the methodology-file and materials checks. -/
def identify_dispute_focus (base_dir cases_dir case_name : String) (env : Env) :
    List FsEffect × Bool :=
  if case_name = "" then ([], false)
  else
    match (candidate_paths base_dir cases_dir case_name).find? env.isdir with
    | none => ([], false)
    | some case_dir =>
      let focus_dir := pjoin case_dir "争议焦点"
      let method_file := method_path base_dir
      if env.isfile method_file = false then ([FsEffect.mkdirs focus_dir], false)
      else
        let method_content := env.fileContent method_file
        let materials_dir := pjoin case_dir "案件材料"
        if env.isdir materials_dir = false then ([FsEffect.mkdirs focus_dir], false)
        else
          let r := collect (env.listing materials_dir)
          if r.material_files = [] then ([FsEffect.mkdirs focus_dir], false)
          else
            let ai_analysis :=
              analyze_with_ai case_name r.material_contents method_content env.gen env.now
            let timestamp := format_timestamp env.now
            let focus_file := pjoin focus_dir ("争议焦点分析-" ++ timestamp ++ ".md")
            ([FsEffect.mkdirs focus_dir, FsEffect.writeFile focus_file ai_analysis], true)

/-- `pat` occurs contiguously inside `s`. -/
def substringOf (pat s : String) : Prop := ∃ pre post, s = pre ++ pat ++ post

/-- A UTF-8 material file with non-empty content. -/
def fileOk : FileData := ⟨"起诉状.txt", ReadOutcome.ok "原告主张A", ReadOutcome.decodeError⟩

/-- A second UTF-8 material file. -/
def fileOk2 : FileData := ⟨"证据清单.txt", ReadOutcome.ok "证据内容", ReadOutcome.decodeError⟩

/-- A markdown material file. -/
def fileMd : FileData := ⟨"答辩状.md", ReadOutcome.ok "被告反驳B", ReadOutcome.decodeError⟩

/-- A zero-byte material file: both decodings succeed with empty text. -/
def fileEmpty : FileData := ⟨"空材料.txt", ReadOutcome.ok "", ReadOutcome.ok ""⟩

/-- A file with an unrecognized extension. -/
def fileJpg : FileData := ⟨"现场照片.jpg", ReadOutcome.decodeError, ReadOutcome.decodeError⟩

/-- A fixed clock value. -/
def nowW : DateTime := ⟨2025, 10, 12, 9, 30, 0⟩

/-- World: case and materials directories exist, methodology file exists,
the materials directory is empty. -/
def envA : Env :=
  { isdir := fun p => p == "cases/测试案件" || p == "cases/测试案件/案件材料",
    isfile := fun p => p == method_path "base",
    fileContent := fun _ => "方法论内容",
    listing := fun _ => ⟨[], []⟩,
    gen := fun _ => GenOutcome.ok,
    now := nowW }

/-- World: one single-party material file, and a generation call that
always raises. -/
def envB : Env :=
  { isdir := fun p => p == "cases/测试案件" || p == "cases/测试案件/案件材料",
    isfile := fun p => p == method_path "base",
    fileContent := fun _ => "方法论内容",
    listing := fun _ => ⟨[], [fileOk]⟩,
    gen := fun _ => GenOutcome.fail "网络错误",
    now := nowW }

/-- World: one single-party material file, generation succeeds. -/
def envC : Env :=
  { isdir := fun p => p == "cases/测试案件" || p == "cases/测试案件/案件材料",
    isfile := fun p => p == method_path "base",
    fileContent := fun _ => "方法论内容",
    listing := fun _ => ⟨[], [fileOk]⟩,
    gen := fun _ => GenOutcome.ok,
    now := nowW }

/-- World: the only material file is a zero-byte file. -/
def envD : Env :=
  { isdir := fun p => p == "cases/测试案件" || p == "cases/测试案件/案件材料",
    isfile := fun p => p == method_path "base",
    fileContent := fun _ => "方法论内容",
    listing := fun _ => ⟨[], [fileEmpty]⟩,
    gen := fun _ => GenOutcome.ok,
    now := nowW }

/-- World: nothing exists on disk. -/
def envNone : Env :=
  { isdir := fun _ => false,
    isfile := fun _ => false,
    fileContent := fun _ => "",
    listing := fun _ => ⟨[], []⟩,
    gen := fun _ => GenOutcome.ok,
    now := nowW }

/-- World: the case directory exists but the methodology file does not. -/
def envMethodMissing : Env :=
  { isdir := fun p => p == "cases/测试案件",
    isfile := fun _ => false,
    fileContent := fun _ => "",
    listing := fun _ => ⟨[], []⟩,
    gen := fun _ => GenOutcome.ok,
    now := nowW }

lemma digitChar_inj : ∀ a < 10, ∀ b < 10, digitChar a = digitChar b → a = b := by decide

lemma digitChar_isDigit : ∀ a < 10, (digitChar a).isDigit = true := by decide

lemma format_timestamp_data (t : DateTime) :
    (format_timestamp t).data =
      [digitChar (t.year / 1000 % 10), digitChar (t.year / 100 % 10),
       digitChar (t.year / 10 % 10), digitChar (t.year % 10),
       digitChar (t.month / 10 % 10), digitChar (t.month % 10),
       digitChar (t.day / 10 % 10), digitChar (t.day % 10),
       digitChar (t.hour / 10 % 10), digitChar (t.hour % 10),
       digitChar (t.minute / 10 % 10), digitChar (t.minute % 10),
       digitChar (t.second / 10 % 10), digitChar (t.second % 10)] := rfl

lemma format_timestamp_length (t : DateTime) : (format_timestamp t).length = 14 := rfl

lemma format_timestamp_digits (t : DateTime) :
    (format_timestamp t).data.all Char.isDigit = true := by
  have h : ∀ a : Nat, (digitChar (a % 10)).isDigit = true :=
    fun a => digitChar_isDigit (a % 10) (Nat.mod_lt _ (by omega))
  simp [format_timestamp_data, h]

lemma format_timestamp_inj (t1 t2 : DateTime) (h1 : ValidDateTime t1) (h2 : ValidDateTime t2)
    (h : format_timestamp t1 = format_timestamp t2) : t1 = t2 := by
  obtain ⟨y1, mo1, d1, hr1, mi1, s1⟩ := t1
  obtain ⟨y2, mo2, d2, hr2, mi2, s2⟩ := t2
  simp only [ValidDateTime] at h1 h2
  obtain ⟨hy1, hy1', hmo1, hmo1', hd1, hd1', hh1, hmi1, hs1⟩ := h1
  obtain ⟨hy2, hy2', hmo2, hmo2', hd2, hd2', hh2, hmi2, hs2⟩ := h2
  have hd := congrArg String.data h
  rw [format_timestamp_data, format_timestamp_data] at hd
  simp only [List.cons.injEq, and_true] at hd
  obtain ⟨e1, e2, e3, e4, e5, e6, e7, e8, e9, e10, e11, e12, e13, e14⟩ := hd
  have q1 := digitChar_inj _ (by omega) _ (by omega) e1
  have q2 := digitChar_inj _ (by omega) _ (by omega) e2
  have q3 := digitChar_inj _ (by omega) _ (by omega) e3
  have q4 := digitChar_inj _ (by omega) _ (by omega) e4
  have q5 := digitChar_inj _ (by omega) _ (by omega) e5
  have q6 := digitChar_inj _ (by omega) _ (by omega) e6
  have q7 := digitChar_inj _ (by omega) _ (by omega) e7
  have q8 := digitChar_inj _ (by omega) _ (by omega) e8
  have q9 := digitChar_inj _ (by omega) _ (by omega) e9
  have q10 := digitChar_inj _ (by omega) _ (by omega) e10
  have q11 := digitChar_inj _ (by omega) _ (by omega) e11
  have q12 := digitChar_inj _ (by omega) _ (by omega) e12
  have q13 := digitChar_inj _ (by omega) _ (by omega) e13
  have q14 := digitChar_inj _ (by omega) _ (by omega) e14
  simp only [DateTime.mk.injEq]
  refine ⟨?_, ?_, ?_, ?_, ?_, ?_⟩ <;> omega

lemma report_name_inj (t1 t2 : DateTime) (h1 : ValidDateTime t1) (h2 : ValidDateTime t2)
    (hne : t1 ≠ t2) (a s : String) :
    a ++ format_timestamp t1 ++ s ≠ a ++ format_timestamp t2 ++ s := by
  intro h
  apply hne
  apply format_timestamp_inj t1 t2 h1 h2
  have hd := congrArg String.data h
  simp only [String.data_append, List.append_assoc] at hd
  have hd2 := List.append_cancel_left hd
  have hd3 := (List.append_inj hd2 rfl).1
  exact String.ext_iff.mpr hd3

lemma identify_success (b c n cd : String) (env : Env)
    (hn : ¬ n = "")
    (hres : (candidate_paths b c n).find? env.isdir = some cd)
    (hmethod : env.isfile (method_path b) = true)
    (hmat : env.isdir (pjoin cd "案件材料") = true)
    (hne : ¬ (collect (env.listing (pjoin cd "案件材料"))).material_files = []) :
    identify_dispute_focus b c n env =
      ([FsEffect.mkdirs (pjoin cd "争议焦点"),
        FsEffect.writeFile
          (pjoin (pjoin cd "争议焦点") ("争议焦点分析-" ++ format_timestamp env.now ++ ".md"))
          (analyze_with_ai n (collect (env.listing (pjoin cd "案件材料"))).material_contents
            (env.fileContent (method_path b)) env.gen env.now)], true) := by
  simp [identify_dispute_focus, hn, hres, hmethod, hmat, hne]

lemma identify_abort_shape (b c n : String) (env : Env)
    (hfail : (identify_dispute_focus b c n env).2 = false) :
    (identify_dispute_focus b c n env).1 = []
    ∨ ∃ cd, (candidate_paths b c n).find? env.isdir = some cd ∧
        (identify_dispute_focus b c n env).1 = [FsEffect.mkdirs (pjoin cd "争议焦点")] := by
  by_cases hn : n = ""
  · left
    simp [identify_dispute_focus, hn]
  · cases hres : (candidate_paths b c n).find? env.isdir with
    | none => left; simp [identify_dispute_focus, hn, hres]
    | some cd =>
      by_cases hmethod : env.isfile (method_path b) = false
      · right; exact ⟨cd, rfl, by simp [identify_dispute_focus, hn, hres, hmethod]⟩
      · by_cases hmat : env.isdir (pjoin cd "案件材料") = false
        · right; exact ⟨cd, rfl, by simp [identify_dispute_focus, hn, hres, hmethod, hmat]⟩
        · by_cases hempty : (collect (env.listing (pjoin cd "案件材料"))).material_files = []
          · right
            exact ⟨cd, rfl, by simp [identify_dispute_focus, hn, hres, hmethod, hmat, hempty]⟩
          · exfalso
            rw [identify_success b c n cd env hn hres (by revert hmethod; simp)
              (by revert hmat; simp) hempty] at hfail
            simp at hfail

lemma collect_fold_sources (subs : List (String × List FileData)) (acc : CollectResult) :
    ∀ l, l ∈ ((subs.foldl collectStep acc).material_sources.map Prod.fst) →
      l ∈ acc.material_sources.map Prod.fst ∨
        ∃ entries, (l, entries) ∈ subs ∧ ¬ globExts entries = [] := by
  induction subs generalizing acc with
  | nil => intro l hl; exact Or.inl hl
  | cons x xs ih =>
    intro l hl
    rcases ih (collectStep acc x) l hl with hacc | ⟨entries, hmem, hne⟩
    · by_cases hg : globExts x.2 = []
      · left
        simpa [collectStep, hg] using hacc
      · simp only [collectStep, if_neg hg, List.map_append] at hacc
        rcases List.mem_append.mp hacc with h | h
        · exact Or.inl h
        · simp at h
          subst h
          exact Or.inr ⟨x.2, by simp, hg⟩
    · exact Or.inr ⟨entries, List.mem_cons_of_mem _ hmem, hne⟩

lemma fallback_contains_name (n d e : String) : substringOf n (fallback_report n d e) :=
  ⟨"\n# ", " 争议焦点分析 (AI分析出错)\n\n## 错误信息\n\n" ++ e ++
    "\n\n## 基本信息\n- 案件名称：" ++ n ++ "\n- 分析日期：" ++ d ++ "\n\n请手动完成争议焦点分析。\n",
   by simp [fallback_report, String.append_assoc]⟩

lemma fallback_contains_date (n d e : String) : substringOf d (fallback_report n d e) :=
  ⟨"\n# " ++ n ++ " 争议焦点分析 (AI分析出错)\n\n## 错误信息\n\n" ++ e ++
    "\n\n## 基本信息\n- 案件名称：" ++ n ++ "\n- 分析日期：", "\n\n请手动完成争议焦点分析。\n",
   by simp [fallback_report, String.append_assoc]⟩

lemma fallback_contains_err (n d e : String) : substringOf e (fallback_report n d e) :=
  ⟨"\n# " ++ n ++ " 争议焦点分析 (AI分析出错)\n\n## 错误信息\n\n",
   "\n\n## 基本信息\n- 案件名称：" ++ n ++ "\n- 分析日期：" ++ d ++ "\n\n请手动完成争议焦点分析。\n",
   by simp [fallback_report, String.append_assoc]⟩

/-- C2: case resolution tries exactly the three candidate directories in
order (case-marker-prefixed, bare, absolute variant) and returns the first
one that is an existing directory; it succeeds exactly when some candidate
exists, and returns `none` when none does, so a name never resolves to
more than one directory. -/
theorem c2_case_resolution (isdir : String → Bool) (b c n : String) :
    (get_case_path isdir b c n).isSome = (candidate_paths b c n).any isdir
  ∧ get_case_path isdir b c n =
      (if isdir (pjoin c ("案件：" ++ n)) then some (pjoin c ("案件：" ++ n))
       else if isdir (pjoin c n) then some (pjoin c n)
       else if isdir (pjoin (pjoin b "案例") n) then some (pjoin (pjoin b "案例") n)
       else none) := by
  cases h1 : isdir (pjoin c ("案件：" ++ n)) <;>
    cases h2 : isdir (pjoin c n) <;>
      cases h3 : isdir (pjoin (pjoin b "案例") n) <;>
        simp [get_case_path, candidate_paths, List.find?, h1, h2, h3]

/-- C5: the file reader returns the UTF-8 text when that decoding
succeeds; on a UTF-8 decoding failure it returns the GBK text when that
retry succeeds (never a placeholder); when both decodings fail it returns
the bracketed placeholder naming the file; and on any other error it
returns the placeholder naming the file and carrying the error message.
Being a total function, it lets no failure escape. -/
theorem c5_read_text_file (file_name t e : String) (gbk : ReadOutcome) :
    read_text_file file_name (ReadOutcome.ok t) gbk = t
  ∧ read_text_file file_name ReadOutcome.decodeError (ReadOutcome.ok t) = t
  ∧ read_text_file file_name ReadOutcome.decodeError ReadOutcome.decodeError =
      "[无法读取文件: " ++ file_name ++ "]"
  ∧ read_text_file file_name ReadOutcome.decodeError (ReadOutcome.otherError e) =
      "[无法读取文件: " ++ file_name ++ "]"
  ∧ read_text_file file_name (ReadOutcome.otherError e) gbk =
      "[读取文件错误: " ++ file_name ++ " - " ++ e ++ "]" := by
  refine ⟨rfl, rfl, rfl, rfl, ?_⟩
  cases gbk <;> rfl

/-- C8: on its success path the generation step is a fixed stub — for a
fixed case name and clock, `analyze_with_ai` returns the same report for
any two material lists and any two methodology templates. -/
theorem c8_generation_stub_independent (gen : String → GenOutcome) (case_name : String)
    (m1 m2 : List String) (p1 p2 : String) (now : DateTime)
    (h1 : gen (build_prompt case_name m1 p1) = GenOutcome.ok)
    (h2 : gen (build_prompt case_name m2 p2) = GenOutcome.ok) :
    analyze_with_ai case_name m1 p1 gen now = analyze_with_ai case_name m2 p2 gen now := by
  simp [analyze_with_ai, h1, h2]

/-- Witness for C8 at concrete inputs. -/
theorem c8_witness :
    analyze_with_ai "测试案件" ["材料甲"] "方法论A" (fun _ => GenOutcome.ok) nowW =
      analyze_with_ai "测试案件" ["材料乙", "材料丙"] "方法论B" (fun _ => GenOutcome.ok) nowW :=
  c8_generation_stub_independent (fun _ => GenOutcome.ok) "测试案件" ["材料甲"]
    ["材料乙", "材料丙"] "方法论A" "方法论B" nowW rfl rfl

/-- C1: if the generation step's underlying call raises, the pipeline
still returns success and writes a report file whose content is the
fallback report, which contains the case name, the current date, and the
error text. -/
theorem c1_generation_failure_never_aborts (b c n cd e : String) (env : Env)
    (hn : ¬ n = "")
    (hres : (candidate_paths b c n).find? env.isdir = some cd)
    (hmethod : env.isfile (method_path b) = true)
    (hmat : env.isdir (pjoin cd "案件材料") = true)
    (hne : ¬ (collect (env.listing (pjoin cd "案件材料"))).material_files = [])
    (hgen : env.gen (build_prompt n
        (collect (env.listing (pjoin cd "案件材料"))).material_contents
        (env.fileContent (method_path b))) = GenOutcome.fail e) :
    identify_dispute_focus b c n env =
      ([FsEffect.mkdirs (pjoin cd "争议焦点"),
        FsEffect.writeFile
          (pjoin (pjoin cd "争议焦点") ("争议焦点分析-" ++ format_timestamp env.now ++ ".md"))
          (fallback_report n (format_date env.now) e)], true)
  ∧ substringOf n (fallback_report n (format_date env.now) e)
  ∧ substringOf (format_date env.now) (fallback_report n (format_date env.now) e)
  ∧ substringOf e (fallback_report n (format_date env.now) e) := by
  refine ⟨?_, fallback_contains_name _ _ _, fallback_contains_date _ _ _,
    fallback_contains_err _ _ _⟩
  rw [identify_success b c n cd env hn hres hmethod hmat hne]
  simp [analyze_with_ai, hgen]

/-- Witness for C1: a world whose generation call always raises still
yields a written report carrying the fallback text. -/
theorem c1_witness :
    identify_dispute_focus "base" "cases" "测试案件" envB =
      ([FsEffect.mkdirs (pjoin "cases/测试案件" "争议焦点"),
        FsEffect.writeFile
          (pjoin (pjoin "cases/测试案件" "争议焦点")
            ("争议焦点分析-" ++ format_timestamp nowW ++ ".md"))
          (fallback_report "测试案件" (format_date nowW) "网络错误")], true) :=
  (c1_generation_failure_never_aborts "base" "cases" "测试案件" "cases/测试案件" "网络错误" envB
    (by decide) (by decide) (by decide) (by decide) (by decide) rfl).1

/-- C4: when discovery finds zero material files, the pipeline fails after
having only created the dispute-focus directory, and its behaviour does
not depend on the generation call at all — generation is never invoked. -/
theorem c4_no_materials_aborts (b c n cd : String) (env : Env)
    (hn : ¬ n = "")
    (hres : (candidate_paths b c n).find? env.isdir = some cd)
    (hmethod : env.isfile (method_path b) = true)
    (hmat : env.isdir (pjoin cd "案件材料") = true)
    (hempty : (collect (env.listing (pjoin cd "案件材料"))).material_files = []) :
    identify_dispute_focus b c n env = ([FsEffect.mkdirs (pjoin cd "争议焦点")], false)
  ∧ ∀ gen2 : String → GenOutcome,
      identify_dispute_focus b c n { env with gen := gen2 } =
        identify_dispute_focus b c n env := by
  constructor
  · simp [identify_dispute_focus, hn, hres, hmethod, hmat, hempty]
  · intro gen2
    simp [identify_dispute_focus, hn, hres, hmethod, hmat, hempty]

/-- Witness for C4: an empty materials directory makes the pipeline fail
with only the directory-creation effect. -/
theorem c4_witness :
    identify_dispute_focus "base" "cases" "测试案件" envA =
      ([FsEffect.mkdirs (pjoin "cases/测试案件" "争议焦点")], false) :=
  (c4_no_materials_aborts "base" "cases" "测试案件" "cases/测试案件" envA
    (by decide) (by decide) (by decide) (by decide) (by decide)).1

/-- C3: a materials directory with subdirectories `A` (two `.txt` files)
and `B` (one `.md` file) yields exactly the two sources `A` and `B` with
counts 2 and 1, and a flat discovered-file list of length 3. -/
theorem c3_multi_party_discovery (a1 a2 b1 : FileData)
    (ha1 : extMatches a1 ".txt" = true) (ha1m : extMatches a1 ".md" = false)
    (ha2 : extMatches a2 ".txt" = true) (ha2m : extMatches a2 ".md" = false)
    (hb1 : extMatches b1 ".txt" = false) (hb1m : extMatches b1 ".md" = true)
    (rf : List FileData) :
    (collect ⟨[("A", [a1, a2]), ("B", [b1])], rf⟩).material_sources =
      [("A", [a1, a2]), ("B", [b1])]
  ∧ ((collect ⟨[("A", [a1, a2]), ("B", [b1])], rf⟩).material_sources.map
      (fun s => (s.1, s.2.length))) = [("A", 2), ("B", 1)]
  ∧ (collect ⟨[("A", [a1, a2]), ("B", [b1])], rf⟩).material_files.length = 3 := by
  refine ⟨?_, ?_, ?_⟩ <;>
    simp [collect, collectStep, globExts, List.filter_cons, List.filter_nil,
      ha1, ha1m, ha2, ha2m, hb1, hb1m]

/-- Witness for C3 at concrete files. -/
theorem c3_witness :
    (collect ⟨[("A", [fileOk, fileOk2]), ("B", [fileMd])], []⟩).material_sources =
      [("A", [fileOk, fileOk2]), ("B", [fileMd])] :=
  (c3_multi_party_discovery fileOk fileOk2 fileMd (by decide) (by decide) (by decide)
    (by decide) (by decide) (by decide) []).1

lemma report_path_inj (t1 t2 : DateTime) (h1 : ValidDateTime t1) (h2 : ValidDateTime t2)
    (hne : t1 ≠ t2) (fd : String) :
    pjoin fd ("争议焦点分析-" ++ format_timestamp t1 ++ ".md") ≠
      pjoin fd ("争议焦点分析-" ++ format_timestamp t2 ++ ".md") := by
  intro h
  exact report_name_inj t1 t2 h1 h2 hne (fd ++ "/" ++ "争议焦点分析-") ".md"
    (by simpa [pjoin, String.append_assoc] using h)

lemma mem_of_mem_globExts (f : FileData) (entries : List FileData)
    (h : f ∈ globExts entries) : f ∈ entries := by
  rcases List.mem_append.mp h with h1 | h1
  · exact (List.mem_filter.mp h1).1
  · exact (List.mem_filter.mp h1).1

lemma taggedContents_nil (label : String) (entries : List FileData)
    (h : ∀ f ∈ entries, read_file_content f = "") : taggedContents label entries = [] := by
  apply List.filterMap_eq_nil_iff.mpr
  intro f hf
  simp [h f (mem_of_mem_globExts f entries hf)]

/-- C6: on the success path the report is written under the per-case
dispute-focus subdirectory with name `争议焦点分析-` plus a 14-digit
timestamp plus `.md`; the timestamp is 14 characters, all digits, and two
distinct clock readings (hence runs more than one second apart) give
distinct report paths; the run's only effects are creating that
subdirectory and writing that one new file — nothing is deleted and no
other path is touched. -/
theorem c6_report_filename (b c n cd : String) (env : Env)
    (hn : ¬ n = "")
    (hres : (candidate_paths b c n).find? env.isdir = some cd)
    (hmethod : env.isfile (method_path b) = true)
    (hmat : env.isdir (pjoin cd "案件材料") = true)
    (hne : ¬ (collect (env.listing (pjoin cd "案件材料"))).material_files = [])
    (hval : ValidDateTime env.now) :
    identify_dispute_focus b c n env =
      ([FsEffect.mkdirs (pjoin cd "争议焦点"),
        FsEffect.writeFile
          (pjoin (pjoin cd "争议焦点") ("争议焦点分析-" ++ format_timestamp env.now ++ ".md"))
          (analyze_with_ai n (collect (env.listing (pjoin cd "案件材料"))).material_contents
            (env.fileContent (method_path b)) env.gen env.now)], true)
  ∧ (format_timestamp env.now).length = 14
  ∧ (format_timestamp env.now).data.all Char.isDigit = true
  ∧ ∀ t2 : DateTime, ValidDateTime t2 → t2 ≠ env.now →
      pjoin (pjoin cd "争议焦点") ("争议焦点分析-" ++ format_timestamp t2 ++ ".md") ≠
        pjoin (pjoin cd "争议焦点") ("争议焦点分析-" ++ format_timestamp env.now ++ ".md") := by
  refine ⟨identify_success b c n cd env hn hres hmethod hmat hne,
    format_timestamp_length _, format_timestamp_digits _, ?_⟩
  intro t2 hv2 hne2
  exact report_path_inj t2 env.now hv2 hval hne2 _

/-- Witness for C6: a concrete successful run produces exactly the
directory creation and the timestamped report write. -/
theorem c6_witness :
    identify_dispute_focus "base" "cases" "测试案件" envC =
      ([FsEffect.mkdirs (pjoin "cases/测试案件" "争议焦点"),
        FsEffect.writeFile
          (pjoin (pjoin "cases/测试案件" "争议焦点")
            ("争议焦点分析-" ++ format_timestamp nowW ++ ".md"))
          (analyze_with_ai "测试案件"
            (collect (envC.listing (pjoin "cases/测试案件" "案件材料"))).material_contents
            (envC.fileContent (method_path "base")) envC.gen nowW)], true) :=
  (c6_report_filename "base" "cases" "测试案件" "cases/测试案件" envC
    (by decide) (by decide) (by decide) (by decide) (by decide) (by decide)).1

/-- C7 counterexample: with the case directory present but the
methodology file missing, the pipeline aborts (a NotFound condition) yet
the dispute-focus directory has already been created — the claim that a
NotFound abort makes no filesystem change is false. -/
theorem c7_counterexample :
    envMethodMissing.isfile (method_path "base") = false
  ∧ (identify_dispute_focus "base" "cases" "测试案件" envMethodMissing).2 = false
  ∧ (identify_dispute_focus "base" "cases" "测试案件" envMethodMissing).1 =
      [FsEffect.mkdirs (pjoin "cases/测试案件" "争议焦点")] := by
  refine ⟨rfl, ?_, ?_⟩ <;> decide

/-- C7 amended: when resolution itself fails (empty name or case
directory missing) the pipeline makes no filesystem change at all; but on
each of the three later NotFound-style aborts — methodology file missing,
materials directory missing, and no materials found — the per-case
dispute-focus subdirectory has already been created, the run's effect
list being exactly that one `mkdirs`, since `os.makedirs` runs
immediately after case resolution, upstream of those checks; and on every
abort no report file is written. -/
theorem c7_amended_abort_effects (b c n cd : String) (env : Env) :
    (n = "" → identify_dispute_focus b c n env = ([], false))
  ∧ ((candidate_paths b c n).find? env.isdir = none →
      identify_dispute_focus b c n env = ([], false))
  ∧ (¬ n = "" → (candidate_paths b c n).find? env.isdir = some cd →
      env.isfile (method_path b) = false →
      identify_dispute_focus b c n env = ([FsEffect.mkdirs (pjoin cd "争议焦点")], false))
  ∧ (¬ n = "" → (candidate_paths b c n).find? env.isdir = some cd →
      env.isfile (method_path b) = true →
      env.isdir (pjoin cd "案件材料") = false →
      identify_dispute_focus b c n env = ([FsEffect.mkdirs (pjoin cd "争议焦点")], false))
  ∧ (¬ n = "" → (candidate_paths b c n).find? env.isdir = some cd →
      env.isfile (method_path b) = true →
      env.isdir (pjoin cd "案件材料") = true →
      (collect (env.listing (pjoin cd "案件材料"))).material_files = [] →
      identify_dispute_focus b c n env = ([FsEffect.mkdirs (pjoin cd "争议焦点")], false))
  ∧ ((identify_dispute_focus b c n env).2 = false →
      ∀ p s, FsEffect.writeFile p s ∉ (identify_dispute_focus b c n env).1) := by
  refine ⟨?_, ?_, ?_, ?_, ?_, ?_⟩
  · intro hn
    simp [identify_dispute_focus, hn]
  · intro hres
    by_cases hn : n = ""
    · simp [identify_dispute_focus, hn]
    · simp [identify_dispute_focus, hn, hres]
  · intro hn hres hmethod
    simp [identify_dispute_focus, hn, hres, hmethod]
  · intro hn hres hmethod hmat
    simp [identify_dispute_focus, hn, hres, hmethod, hmat]
  · intro hn hres hmethod hmat hempty
    simp [identify_dispute_focus, hn, hres, hmethod, hmat, hempty]
  · intro hfail p s hmem
    rcases identify_abort_shape b c n env hfail with h | ⟨cd2, _, h⟩
    · rw [h] at hmem
      simp at hmem
    · rw [h] at hmem
      simp at hmem

/-- Witness for the amended C7: with the case directory present but the
methodology file missing, the abort's effect list is exactly the creation
of the dispute-focus subdirectory. -/
theorem c7_amended_witness :
    identify_dispute_focus "base" "cases" "测试案件" envMethodMissing =
      ([FsEffect.mkdirs (pjoin "cases/测试案件" "争议焦点")], false) :=
  (c7_amended_abort_effects "base" "cases" "测试案件" "cases/测试案件" envMethodMissing).2.2.1
    (by decide) (by decide) rfl

/-- C9: when the materials directory has at least one subdirectory, the
files lying directly in the materials directory are ignored entirely —
the whole discovery result is independent of them — and every source
label in the mapping comes from a subdirectory whose glob found at least
one recognized file, so a subdirectory without recognized files never
appears. -/
theorem c9_toplevel_ignored (subs : List (String × List FileData)) (rf1 rf2 : List FileData)
    (hsubs : ¬ subs = []) :
    collect ⟨subs, rf1⟩ = collect ⟨subs, rf2⟩
  ∧ ∀ l, l ∈ (collect ⟨subs, rf1⟩).material_sources.map Prod.fst →
      ∃ entries, (l, entries) ∈ subs ∧ ¬ globExts entries = [] := by
  constructor
  · simp [collect, hsubs]
  · intro l hl
    have hcol : collect ⟨subs, rf1⟩ = subs.foldl collectStep ⟨[], [], []⟩ := by
      simp [collect, hsubs]
    rw [hcol] at hl
    rcases collect_fold_sources subs ⟨[], [], []⟩ l hl with h | h
    · simp at h
    · exact h

/-- Witness for C9: top-level files do not change the discovery result. -/
theorem c9_witness :
    collect ⟨[("原告", [fileOk]), ("空目录", [fileJpg])], [fileOk2]⟩ =
      collect ⟨[("原告", [fileOk]), ("空目录", [fileJpg])], []⟩ :=
  (c9_toplevel_ignored [("原告", [fileOk]), ("空目录", [fileJpg])] [fileOk2] []
    (by decide)).1

/-- C10: zero-byte recognized files count toward the discovered-file
total — in single-party mode the flat list is exactly the glob result, so
a directory of only empty files still passes the non-empty check and the
pipeline proceeds to generation and returns success — yet such files
contribute no content record, in single-party and multi-party mode alike. -/
theorem c10_empty_files_counted (files : List FileData)
    (hempty : ∀ f ∈ files, read_file_content f = "")
    (hsome : ¬ globExts files = []) :
    (collect ⟨[], files⟩).material_files = globExts files
  ∧ ¬ (collect ⟨[], files⟩).material_files = []
  ∧ (collect ⟨[], files⟩).material_contents = []
  ∧ (∀ (label : String) (rf : List FileData),
      (collect ⟨[(label, files)], rf⟩).material_files = globExts files
      ∧ (collect ⟨[(label, files)], rf⟩).material_contents = [])
  ∧ (∀ (b c n cd : String) (env : Env), ¬ n = "" →
      (candidate_paths b c n).find? env.isdir = some cd →
      env.isfile (method_path b) = true →
      env.isdir (pjoin cd "案件材料") = true →
      env.listing (pjoin cd "案件材料") = ⟨[], files⟩ →
      (identify_dispute_focus b c n env).2 = true) := by
  refine ⟨by simp [collect], ?_, ?_, ?_, ?_⟩
  · simp [collect, hsome]
  · simp [collect, taggedContents_nil "材料" files hempty]
  · intro label rf
    constructor
    · simp [collect, collectStep, hsome]
    · simp [collect, collectStep, hsome, taggedContents_nil label files hempty]
  · intro b c n cd env hn hres hmethod hmat hlist
    have hne : ¬ (collect (env.listing (pjoin cd "案件材料"))).material_files = [] := by
      rw [hlist]
      simp [collect, hsome]
    rw [identify_success b c n cd env hn hres hmethod hmat hne]

/-- Witness for C10: a materials directory holding one zero-byte `.txt`
file still drives the pipeline to a successful report write. -/
theorem c10_witness :
    (identify_dispute_focus "base" "cases" "测试案件" envD).2 = true :=
  (c10_empty_files_counted [fileEmpty] (by decide) (by decide)).2.2.2.2
    "base" "cases" "测试案件" "cases/测试案件" envD
    (by decide) (by decide) (by decide) (by decide) rfl
